import Mathlib

/-!
Verification of the catch-all transaction representation
(`crates/network/src/any/either.rs`) and the optional Prague payload
container (`crates/rpc-types-engine/src/prague.rs`).

The two source files are embedded shallowly.  External collaborator types
(`alloy_consensus::TypedTransaction`, `alloy_consensus::TxEnvelope`,
`UnknownTypedTransaction`, `UnknownTxEnvelope`, `TransactionRequest`,
`WithOtherFields`, serde_json values) live outside the shown sources and are
modelled from the specification, each with a doc comment saying so.
Machine integers (u8, u64, u128) are modelled as `Nat`: every operation here
only reads them, so overflow never arises.  A Rust panic is modelled as a
distinct `fatal` outcome of the encode operation, and writing into a
`BufMut` output buffer is modelled as returning the list of written bytes.
-/

/-- Modelled from the spec: the generic JSON value model (serde_json::Value),
out of scope machinery used as the open field-bag value type.  Numbers are
modelled as `Nat` (the only numbers the shown code produces are `u8` tags). -/
inductive Json where
  | null
  | bool (b : Bool)
  | num (n : Nat)
  | str (s : String)
  | arr (elems : List Json)
  | obj (entries : List (String × Json))

/-- Modelled from the spec: the ordered string-keyed field map backing
`OtherFields` (an ordered-map from strings to JSON values). -/
abbrev Fields := List (String × Json)

/-- Lookup of a key in a field map (first matching entry). -/
def Fields.lookup (fs : Fields) (k : String) : Option Json :=
  match fs with
  | [] => Option.none
  | (k₂, v) :: rest => if k₂ = k then some v else Fields.lookup rest k

/-- Map insert with overwrite semantics, as `BTreeMap::insert`: an existing
entry under the key is replaced, otherwise the entry is added. -/
def Fields.insert (fs : Fields) (k : String) (v : Json) : Fields :=
  match fs with
  | [] => [(k, v)]
  | (k₂, v₂) :: rest =>
      if k₂ = k then (k, v) :: rest else (k₂, v₂) :: Fields.insert rest k v

/-- Modelled from the spec: `alloy_consensus::TypedTransaction` (outside the
shown sources) is the opaque fully-structured known transaction, treated as a
capability set of uniform read accessors; we record the accessor results the
shown code consumes as plain fields. -/
structure TypedTransaction where
  nonce : Nat
  gas_limit : Nat
  gas_price : Option Nat
  max_priority_fee_per_gas : Option Nat
  value : Nat
  input : List Nat
deriving DecidableEq

/-- Modelled from the spec: `UnknownTypedTransaction` (the
UnknownTransactionRecord of §3, defined outside the shown sources) stores the
wire type tag `ty` (the `AnyTxType` u8 newtype, modelled as `Nat`), the open
field bag `fields`, and a minimal structural subset answering the uniform
read accessors without JSON probing (§4.2). -/
structure UnknownTypedTransaction where
  ty : Nat
  fields : Fields
  nonce : Nat
  gas_limit : Nat
  gas_price : Option Nat
  max_priority_fee_per_gas : Option Nat

/-- Modelled from the spec (§4.1): `field(key)` on the unknown record
deserializes the raw value under `key` into a caller-chosen shape.  The
caller-chosen deserializer for the target shape is the parameter `dec`
(standing for the `serde_json::from_value` instance of the generic `T`);
`Option.none` when the key is absent, `some (dec v)` when present — the
decode result is `Except.ok` on structural match and `Except.error`
otherwise. -/
def UnknownTypedTransaction.field {α : Type} (dec : Json → Except String α)
    (u : UnknownTypedTransaction) (key : String) : Option (Except String α) :=
  (Fields.lookup u.fields key).map dec

/-- Modelled from the spec: `UnknownTypedTransaction::deser_by_key`
delegates to the record's per-key field extraction. -/
def UnknownTypedTransaction.deser_by_key {α : Type} (dec : Json → Except String α)
    (u : UnknownTypedTransaction) (key : String) : Option (Except String α) :=
  u.field dec key

/-- Modelled from the spec (§3): `UnknownTxEnvelope` is the Unknown envelope
record: an externally supplied 32-byte digest (modelled as `Nat`) plus the
inner unknown record.  `hash` is supplied at construction and never
recomputed from `inner`. -/
structure UnknownTxEnvelope where
  hash : Nat
  inner : UnknownTypedTransaction

/-- Modelled from the spec: the envelope's uniform type-tag accessor returns
the inner record's type tag (used by the shown code as `inner.ty()` and
`inner.as_ref().ty`). -/
def UnknownTxEnvelope.ty (e : UnknownTxEnvelope) : Nat :=
  e.inner.ty

/-- Modelled from the spec: envelope read accessors delegate to the inner
unknown record. -/
def UnknownTxEnvelope.gas_price (e : UnknownTxEnvelope) : Option Nat :=
  e.inner.gas_price

/-- Modelled from the spec: envelope read accessors delegate to the inner
unknown record. -/
def UnknownTxEnvelope.max_priority_fee_per_gas (e : UnknownTxEnvelope) : Option Nat :=
  e.inner.max_priority_fee_per_gas

/-- Modelled from the spec: `alloy_consensus::TxEnvelope` (outside the shown
sources) is the known signed envelope: a known transaction, opaque signature
data, its real EIP-2718 byte encoding, and its type prefix (`Option.none`
for the legacy, unprefixed framing). -/
structure TxEnvelope where
  tx : TypedTransaction
  sig : Nat
  bytes : List Nat
  flag : Option Nat
deriving DecidableEq

/-- Modelled from the spec: the known envelope's own type-prefix rule. -/
def TxEnvelope.type_flag (e : TxEnvelope) : Option Nat :=
  e.flag

/-- Modelled from the spec: the known envelope writes its real bytes. -/
def TxEnvelope.encode_2718 (e : TxEnvelope) : List Nat :=
  e.bytes

/-- Modelled from the spec: the known envelope's real encoded length. -/
def TxEnvelope.encode_2718_len (e : TxEnvelope) : Nat :=
  e.bytes.length

/-- Modelled from the spec: a stand-in content digest — the Known variant's
hash is derivable from its bytes (§3). -/
def digest (bs : List Nat) : Nat :=
  bs.foldl (fun a b => a * 257 + b + 1) 1

/-- Modelled from the spec: the known envelope's canonical identity is
computed from its content. -/
def TxEnvelope.trie_hash (e : TxEnvelope) : Nat :=
  digest e.bytes

/-- Modelled from the spec: unwrapping a known envelope to its inner typed
value (`TxEnvelope → TypedTransaction` via `into`), discarding the
signature. -/
def TxEnvelope.toTypedTransaction (e : TxEnvelope) : TypedTransaction :=
  e.tx

/-- Modelled from the spec: known envelope read accessors expose the inner
transaction's fields. -/
def TxEnvelope.gas_price (e : TxEnvelope) : Option Nat :=
  e.tx.gas_price

/-- Modelled from the spec: known envelope read accessors expose the inner
transaction's fields. -/
def TxEnvelope.max_priority_fee_per_gas (e : TxEnvelope) : Option Nat :=
  e.tx.max_priority_fee_per_gas

/-- The EIP-2718 decode error type (`alloy_eips::eip2718::Eip2718Error`),
modelled from the spec: an unrecognized type tag or a malformed payload. -/
inductive Eip2718Error where
  | unexpectedType (ty : Nat)
  | rlpError
deriving DecidableEq

/-- Modelled from the spec: the type tags the Ethereum envelope recognizes on
the typed decode path (the non-legacy known transaction types). -/
def recognizedTypes : List Nat := [1, 2, 3, 4]

/-- Modelled from the spec: `TxEnvelope::typed_decode` only succeeds for
recognized type tags, producing a decoded known envelope; an unrecognized
tag is a decode failure. -/
def TxEnvelope.typed_decode (ty : Nat) (buf : List Nat) : Except Eip2718Error TxEnvelope :=
  if ty ∈ recognizedTypes then
    Except.ok
      { tx := { nonce := 0, gas_limit := 0, gas_price := Option.none,
                max_priority_fee_per_gas := Option.none, value := 0, input := buf },
        sig := 0, bytes := ty :: buf, flag := some ty }
  else
    Except.error (Eip2718Error.unexpectedType ty)

/-- Modelled from the spec: `TxEnvelope::fallback_decode` handles the legacy
untyped format; grossly malformed (empty) input is a decode failure. -/
def TxEnvelope.fallback_decode (buf : List Nat) : Except Eip2718Error TxEnvelope :=
  match buf with
  | [] => Except.error Eip2718Error.rlpError
  | b :: rest =>
      Except.ok
        { tx := { nonce := 0, gas_limit := 0, gas_price := Option.none,
                  max_priority_fee_per_gas := Option.none, value := 0, input := b :: rest },
          sig := 0, bytes := b :: rest, flag := Option.none }

/-- Modelled from the spec: the chain-agnostic generic transaction request
(`alloy_rpc_types_eth::TransactionRequest`, outside the shown sources), a
bundle of optional structured fields. -/
structure TransactionRequest where
  nonce : Option Nat
  gas_limit : Option Nat
  gas_price : Option Nat
  max_priority_fee_per_gas : Option Nat
  value : Option Nat
  input : Option (List Nat)
deriving DecidableEq

/-- Modelled from the spec: `TransactionRequest::default()` — every
structured field absent. -/
def TransactionRequest.default : TransactionRequest :=
  { nonce := Option.none, gas_limit := Option.none, gas_price := Option.none,
    max_priority_fee_per_gas := Option.none, value := Option.none, input := Option.none }

/-- Modelled from the spec: the known-transaction-to-request conversion
(`From<TypedTransaction> for TransactionRequest`, outside the shown
sources): the structured fields are carried over. -/
def TypedTransaction.toRequest (tx : TypedTransaction) : TransactionRequest :=
  { nonce := some tx.nonce, gas_limit := some tx.gas_limit, gas_price := tx.gas_price,
    max_priority_fee_per_gas := tx.max_priority_fee_per_gas, value := some tx.value,
    input := some tx.input }

/-- Modelled from the spec: `alloy_serde::WithOtherFields` pairs an inner
value with the open field bag (`OtherFields`, modelled directly as the
ordered field map it wraps). -/
structure WithOtherFields (α : Type) where
  inner : α
  other : Fields

/-- Modelled from the spec: `WithOtherFields::new` attaches an empty (default)
field bag. -/
def WithOtherFields.new {α : Type} (inner : α) : WithOtherFields α :=
  { inner := inner, other := [] }

/-- `AnyTypedTransaction` (either.rs): the unsigned transaction type for a
catch-all network — an Ethereum typed transaction or a transaction of
unknown type. -/
inductive AnyTypedTransaction where
  | Ethereum (tx : TypedTransaction)
  | Unknown (inner : UnknownTypedTransaction)

/-- `AnyTypedTransaction::deser_by_key` (either.rs): `Option.none` for the
Ethereum variant, delegation to the inner record for the Unknown variant.
The generic target shape `T` is represented by its deserializer `dec`. -/
def AnyTypedTransaction.deser_by_key {α : Type} (dec : Json → Except String α)
    (t : AnyTypedTransaction) (key : String) : Option (Except String α) :=
  match t with
  | .Ethereum _ => Option.none
  | .Unknown inner => inner.deser_by_key dec key

/-- `From<UnknownTypedTransaction> for AnyTypedTransaction` (either.rs). -/
def AnyTypedTransaction.ofUnknown (value : UnknownTypedTransaction) : AnyTypedTransaction :=
  .Unknown value

/-- `From<TypedTransaction> for AnyTypedTransaction` (either.rs). -/
def AnyTypedTransaction.ofTyped (value : TypedTransaction) : AnyTypedTransaction :=
  .Ethereum value

/-- `AnyTypedTransaction::gas_price` (either.rs dispatch). -/
def AnyTypedTransaction.gas_price : AnyTypedTransaction → Option Nat
  | .Ethereum inner => inner.gas_price
  | .Unknown inner => inner.gas_price

/-- `AnyTypedTransaction::max_priority_fee_per_gas` (either.rs dispatch). -/
def AnyTypedTransaction.max_priority_fee_per_gas : AnyTypedTransaction → Option Nat
  | .Ethereum inner => inner.max_priority_fee_per_gas
  | .Unknown inner => inner.max_priority_fee_per_gas

/-- `AnyTypedTransaction::priority_fee_or_price` (either.rs):
`self.max_priority_fee_per_gas().or_else(gas_price).unwrap_or_default()`. -/
def AnyTypedTransaction.priority_fee_or_price (t : AnyTypedTransaction) : Nat :=
  (t.max_priority_fee_per_gas.orElse fun _ => t.gas_price).getD 0

/-- `AnyTxEnvelope` (either.rs): the transaction envelope for a catch-all
network — an Ethereum envelope or an unknown-typed envelope. -/
inductive AnyTxEnvelope where
  | Ethereum (tx : TxEnvelope)
  | Unknown (e : UnknownTxEnvelope)

/-- `From<AnyTxEnvelope> for AnyTypedTransaction` (either.rs): Ethereum
unwraps the envelope to its typed transaction; Unknown keeps the inner
record, dropping the hash. -/
def AnyTypedTransaction.ofEnvelope : AnyTxEnvelope → AnyTypedTransaction
  | .Ethereum tx => .Ethereum tx.toTypedTransaction
  | .Unknown e => AnyTypedTransaction.ofUnknown e.inner

/-- `From<AnyTypedTransaction> for WithOtherFields of TransactionRequest`
(either.rs): Ethereum delegates to the known conversion under an empty bag;
Unknown defaults the structured request and takes the record's field bag
with the type key forcibly set to the numeric type tag. -/
def AnyTypedTransaction.toRequest : AnyTypedTransaction → WithOtherFields TransactionRequest
  | .Ethereum tx => WithOtherFields.new tx.toRequest
  | .Unknown u =>
      { inner := TransactionRequest.default,
        other := Fields.insert u.fields "type" (Json.num u.ty) }

/-- `From<AnyTxEnvelope> for WithOtherFields of TransactionRequest`
(either.rs): via `AnyTypedTransaction`. -/
def AnyTxEnvelope.toRequest (value : AnyTxEnvelope) : WithOtherFields TransactionRequest :=
  (AnyTypedTransaction.ofEnvelope value).toRequest

/-- `AnyTxEnvelope::deser_by_key` (either.rs): `Option.none` for the Ethereum
variant, delegation to the inner unknown record for the Unknown variant. -/
def AnyTxEnvelope.deser_by_key {α : Type} (dec : Json → Except String α)
    (e : AnyTxEnvelope) (key : String) : Option (Except String α) :=
  match e with
  | .Ethereum _ => Option.none
  | .Unknown inner => inner.inner.deser_by_key dec key

/-- Outcome of the binary envelope encode operation: either the bytes written
to the output buffer, or a fatal abort (a Rust panic) carrying its message. -/
inductive EncodeOutcome where
  | written (bytes : List Nat)
  | fatal (msg : String)

/-- The bytes an encode outcome wrote, if it wrote any. -/
def EncodeOutcome.writtenBytes : EncodeOutcome → Option (List Nat)
  | .written bs => some bs
  | .fatal _ => Option.none

/-- The abort message of `AnyTxEnvelope::encode_2718` on the Unknown variant,
naming the offending type tag (the shown panic format string with the tag
interpolated). -/
def abortMessage (ty : Nat) : String :=
  "Attempted to encode unknown transaction type: " ++ Nat.repr ty ++
    ". This is not a bug in alloy. To encode or decode unknown transaction types, use a custom Transaction type and a custom Network implementation."

/-- `AnyTxEnvelope::type_flag` (either.rs): Ethereum delegates; Unknown
always reports its stored type tag as present. -/
def AnyTxEnvelope.type_flag : AnyTxEnvelope → Option Nat
  | .Ethereum t => t.type_flag
  | .Unknown inner => some inner.ty

/-- `AnyTxEnvelope::encode_2718_len` (either.rs): Ethereum delegates; Unknown
reports the fixed sentinel length 1. -/
def AnyTxEnvelope.encode_2718_len : AnyTxEnvelope → Nat
  | .Ethereum t => t.encode_2718_len
  | .Unknown _ => 1

/-- `AnyTxEnvelope::encode_2718` (either.rs): Ethereum writes its real bytes;
Unknown aborts fatally with a message naming the type tag
(`inner.as_ref().ty`). -/
def AnyTxEnvelope.encode_2718 : AnyTxEnvelope → EncodeOutcome
  | .Ethereum t => .written t.encode_2718
  | .Unknown inner => .fatal (abortMessage inner.inner.ty)

/-- `AnyTxEnvelope::trie_hash` (either.rs): Ethereum computes it; Unknown
returns the stored hash verbatim. -/
def AnyTxEnvelope.trie_hash : AnyTxEnvelope → Nat
  | .Ethereum tx => tx.trie_hash
  | .Unknown inner => inner.hash

/-- `AnyTxEnvelope::typed_decode` (either.rs):
`TxEnvelope::typed_decode(ty, buf).map(Self::Ethereum)`. -/
def AnyTxEnvelope.typed_decode (ty : Nat) (buf : List Nat) : Except Eip2718Error AnyTxEnvelope :=
  (TxEnvelope.typed_decode ty buf).map AnyTxEnvelope.Ethereum

/-- `AnyTxEnvelope::fallback_decode` (either.rs):
`TxEnvelope::fallback_decode(buf).map(Self::Ethereum)`. -/
def AnyTxEnvelope.fallback_decode (buf : List Nat) : Except Eip2718Error AnyTxEnvelope :=
  (TxEnvelope.fallback_decode buf).map AnyTxEnvelope.Ethereum

/-- `AnyTxEnvelope::gas_price` (either.rs dispatch). -/
def AnyTxEnvelope.gas_price : AnyTxEnvelope → Option Nat
  | .Ethereum inner => inner.gas_price
  | .Unknown inner => inner.gas_price

/-- `AnyTxEnvelope::max_priority_fee_per_gas` (either.rs dispatch). -/
def AnyTxEnvelope.max_priority_fee_per_gas : AnyTxEnvelope → Option Nat
  | .Ethereum inner => inner.max_priority_fee_per_gas
  | .Unknown inner => inner.max_priority_fee_per_gas

/-- `AnyTxEnvelope::priority_fee_or_price` (either.rs): same expression as on
`AnyTypedTransaction`. -/
def AnyTxEnvelope.priority_fee_or_price (e : AnyTxEnvelope) : Nat :=
  (e.max_priority_fee_per_gas.orElse fun _ => e.gas_price).getD 0

/-- Modelled from the spec: `alloy_eips::eip7685::Requests` (outside the
shown sources), a sequence of opaque request byte sequences. -/
structure Requests where
  toList : List (List Nat)
deriving DecidableEq

/-- `PraguePayloadFields` (prague.rs): execution requests plus the IL. -/
structure PraguePayloadFields where
  requests : Requests
  il : List (List Nat)
deriving DecidableEq

/-- `MaybePraguePayloadFields` (prague.rs): a container for
`PraguePayloadFields` that may or may not be present. -/
structure MaybePraguePayloadFields where
  fields : Option PraguePayloadFields
deriving DecidableEq

/-- `MaybePraguePayloadFields::none` (prague.rs). -/
def MaybePraguePayloadFields.none : MaybePraguePayloadFields :=
  { fields := Option.none }

/-- `MaybePraguePayloadFields::into_inner` (prague.rs). -/
def MaybePraguePayloadFields.into_inner (m : MaybePraguePayloadFields) :
    Option PraguePayloadFields :=
  m.fields

/-- `MaybePraguePayloadFields::requests` (prague.rs). -/
def MaybePraguePayloadFields.requests (m : MaybePraguePayloadFields) : Option Requests :=
  m.fields.map fun fields => fields.requests

/-- `MaybePraguePayloadFields::il` (prague.rs). -/
def MaybePraguePayloadFields.il (m : MaybePraguePayloadFields) : Option (List (List Nat)) :=
  m.fields.map fun fields => fields.il

/-- `MaybePraguePayloadFields::as_ref` (prague.rs). -/
def MaybePraguePayloadFields.asRef (m : MaybePraguePayloadFields) :
    Option PraguePayloadFields :=
  m.fields

/-- `From<PraguePayloadFields> for MaybePraguePayloadFields` (prague.rs). -/
def MaybePraguePayloadFields.ofFields (fields : PraguePayloadFields) :
    MaybePraguePayloadFields :=
  { fields := some fields }

/-- `From<Option<PraguePayloadFields>> for MaybePraguePayloadFields`
(prague.rs). -/
def MaybePraguePayloadFields.ofOption (fields : Option PraguePayloadFields) :
    MaybePraguePayloadFields :=
  { fields := fields }

/-- The derived `Default` of `MaybePraguePayloadFields` (prague.rs): the
default of each field, and `Option`'s default is absence. -/
def MaybePraguePayloadFields.default : MaybePraguePayloadFields :=
  { fields := Option.none }

/-- Inserting a key and looking it up yields the inserted value. -/
theorem Fields.lookup_insert_self (fs : Fields) (k : String) (v : Json) :
    Fields.lookup (Fields.insert fs k v) k = some v := by
  induction fs with
  | nil => simp [Fields.insert, Fields.lookup]
  | cons hd tl ih =>
      obtain ⟨k₂, v₂⟩ := hd
      by_cases h : k₂ = k
      · simp [Fields.insert, Fields.lookup, h]
      · simp [Fields.insert, Fields.lookup, h, ih]

/-- Inserting one key leaves lookups of every other key unchanged. -/
theorem Fields.lookup_insert_ne (fs : Fields) (k k₂ : String) (v : Json)
    (h : k₂ ≠ k) : Fields.lookup (Fields.insert fs k v) k₂ = Fields.lookup fs k₂ := by
  induction fs with
  | nil => simp [Fields.insert, Fields.lookup, Ne.symm h]
  | cons hd tl ih =>
      obtain ⟨k₃, v₃⟩ := hd
      by_cases h₃ : k₃ = k
      · subst h₃
        simp [Fields.insert, Fields.lookup, Ne.symm h]
      · simp only [Fields.insert, if_neg h₃, Fields.lookup]
        by_cases h₄ : k₃ = k₂
        · simp [h₄]
        · simp [h₄, ih]

/-- C1: on the Unknown variant, `AnyTxEnvelope::encode_2718` aborts fatally
(the Rust panic, not a recoverable error) with a message naming the
unsupported type tag, and never writes a byte sequence; on the Ethereum
variant it writes the transaction's real bytes. -/
theorem encode_2718_unknown_fatal_ethereum_writes :
    (∀ u : UnknownTxEnvelope,
        AnyTxEnvelope.encode_2718 (AnyTxEnvelope.Unknown u)
            = EncodeOutcome.fatal (abortMessage u.inner.ty)
        ∧ (AnyTxEnvelope.encode_2718 (AnyTxEnvelope.Unknown u)).writtenBytes = Option.none
        ∧ ∃ pre post, abortMessage u.inner.ty = pre ++ Nat.repr u.inner.ty ++ post)
    ∧ (∀ t : TxEnvelope,
        AnyTxEnvelope.encode_2718 (AnyTxEnvelope.Ethereum t)
            = EncodeOutcome.written (TxEnvelope.encode_2718 t)) := by
  refine ⟨fun u => ⟨rfl, rfl, ?_⟩, fun t => rfl⟩
  exact ⟨"Attempted to encode unknown transaction type: ",
    ". This is not a bug in alloy. To encode or decode unknown transaction types, use a custom Transaction type and a custom Network implementation.",
    rfl⟩

/-- C6: `trie_hash` of an Unknown envelope is exactly the externally supplied
stored hash, whatever it is and whatever the inner record is (no
recomputation and no validation against a derivable digest); for the
Ethereum variant it is computed from the transaction's content. -/
theorem trie_hash_unknown_verbatim :
    (∀ (h : Nat) (r : UnknownTypedTransaction),
        AnyTxEnvelope.trie_hash (AnyTxEnvelope.Unknown ⟨h, r⟩) = h)
    ∧ (∀ t : TxEnvelope,
        AnyTxEnvelope.trie_hash (AnyTxEnvelope.Ethereum t) = TxEnvelope.trie_hash t
        ∧ TxEnvelope.trie_hash t = digest t.bytes) :=
  ⟨fun _ _ => rfl, fun _ => ⟨rfl, rfl⟩⟩

/-- C7: on the Unknown variant, `type_flag` is `some` of the stored type tag
and `encode_2718_len` is the fixed sentinel 1; on the Ethereum variant both
delegate to the known envelope's own type-prefix rule and real encoded
length. -/
theorem type_flag_and_len_spec :
    (∀ e : UnknownTxEnvelope,
        AnyTxEnvelope.type_flag (AnyTxEnvelope.Unknown e) = some (UnknownTxEnvelope.ty e)
        ∧ AnyTxEnvelope.encode_2718_len (AnyTxEnvelope.Unknown e) = 1)
    ∧ (∀ t : TxEnvelope,
        AnyTxEnvelope.type_flag (AnyTxEnvelope.Ethereum t) = TxEnvelope.type_flag t
        ∧ AnyTxEnvelope.encode_2718_len (AnyTxEnvelope.Ethereum t)
            = TxEnvelope.encode_2718_len t) :=
  ⟨fun _ => ⟨rfl, rfl⟩, fun _ => ⟨rfl, rfl⟩⟩

/-- C9: converting an `AnyTxEnvelope` into an `AnyTypedTransaction` discards
only envelope identity: an Ethereum envelope yields the Ethereum variant of
its inner typed transaction (signature dropped), and an Unknown envelope
with hash `h` and inner record `r` yields the Unknown variant holding
exactly `r`, with `h` dropped. -/
theorem envelope_to_typed_discards_identity :
    (∀ t : TxEnvelope,
        AnyTypedTransaction.ofEnvelope (AnyTxEnvelope.Ethereum t)
            = AnyTypedTransaction.Ethereum (TxEnvelope.toTypedTransaction t))
    ∧ (∀ (h : Nat) (r : UnknownTypedTransaction),
        AnyTypedTransaction.ofEnvelope (AnyTxEnvelope.Unknown ⟨h, r⟩)
            = AnyTypedTransaction.Unknown r) :=
  ⟨fun _ => rfl, fun _ _ => rfl⟩

/-- C10: construction and `into_inner` on `MaybePraguePayloadFields` are
mutually inverse (`ofOption o` then `into_inner` gives back `o`, `ofFields b`
gives `some b`, `none` gives absence), and the derived `Default` equals
`none`. -/
theorem maybe_prague_into_inner_inverse :
    (∀ o : Option PraguePayloadFields,
        MaybePraguePayloadFields.into_inner (MaybePraguePayloadFields.ofOption o) = o)
    ∧ (∀ b : PraguePayloadFields,
        MaybePraguePayloadFields.into_inner (MaybePraguePayloadFields.ofFields b) = some b)
    ∧ MaybePraguePayloadFields.into_inner MaybePraguePayloadFields.none = Option.none
    ∧ MaybePraguePayloadFields.default = MaybePraguePayloadFields.none :=
  ⟨fun _ => rfl, fun _ => rfl, rfl, rfl⟩

/-- C8: `requests` and `il` on `MaybePraguePayloadFields` are absent exactly
when the container is absent: `none` yields absence from both, construction
from any bundle — including one with an empty inclusion list — yields `some`
from both, and on every container the two accessors are present or absent
together with the underlying option (never partial presence). -/
theorem maybe_prague_accessors_presence :
    MaybePraguePayloadFields.requests MaybePraguePayloadFields.none = Option.none
    ∧ MaybePraguePayloadFields.il MaybePraguePayloadFields.none = Option.none
    ∧ (∀ b : PraguePayloadFields,
        MaybePraguePayloadFields.requests (MaybePraguePayloadFields.ofFields b)
            = some b.requests
        ∧ MaybePraguePayloadFields.il (MaybePraguePayloadFields.ofFields b) = some b.il)
    ∧ (∀ r : Requests,
        MaybePraguePayloadFields.il (MaybePraguePayloadFields.ofFields ⟨r, []⟩) = some [])
    ∧ (∀ m : MaybePraguePayloadFields,
        match m.fields with
        | Option.none =>
            MaybePraguePayloadFields.requests m = Option.none
            ∧ MaybePraguePayloadFields.il m = Option.none
        | some f =>
            MaybePraguePayloadFields.requests m = some f.requests
            ∧ MaybePraguePayloadFields.il m = some f.il) := by
  refine ⟨rfl, rfl, fun b => ⟨rfl, rfl⟩, fun r => rfl, fun m => ?_⟩
  obtain ⟨fields⟩ := m
  cases fields with
  | none => exact ⟨rfl, rfl⟩
  | some f => exact ⟨rfl, rfl⟩

/-- C2: whenever `AnyTxEnvelope::typed_decode` or
`AnyTxEnvelope::fallback_decode` succeeds, the result is the Ethereum
(Known) variant — the binary decode path never produces the Unknown
variant — and an unrecognized type tag is a decode failure, not a silent
Unknown fallback. -/
theorem decode_never_unknown :
    (∀ (ty : Nat) (buf : List Nat) (e : AnyTxEnvelope),
        AnyTxEnvelope.typed_decode ty buf = Except.ok e →
        ∃ t, e = AnyTxEnvelope.Ethereum t)
    ∧ (∀ (buf : List Nat) (e : AnyTxEnvelope),
        AnyTxEnvelope.fallback_decode buf = Except.ok e →
        ∃ t, e = AnyTxEnvelope.Ethereum t)
    ∧ (∀ (ty : Nat) (buf : List Nat), ty ∉ recognizedTypes →
        AnyTxEnvelope.typed_decode ty buf
            = Except.error (Eip2718Error.unexpectedType ty)) := by
  refine ⟨fun ty buf e h => ?_, fun buf e h => ?_, fun ty buf h => ?_⟩
  · unfold AnyTxEnvelope.typed_decode at h
    cases hd : TxEnvelope.typed_decode ty buf with
    | ok t =>
        rw [hd] at h
        simp only [Except.map] at h
        exact ⟨t, by injection h with h2; exact h2.symm⟩
    | error err =>
        rw [hd] at h
        simp only [Except.map] at h
        exact Except.noConfusion h
  · unfold AnyTxEnvelope.fallback_decode at h
    cases hd : TxEnvelope.fallback_decode buf with
    | ok t =>
        rw [hd] at h
        simp only [Except.map] at h
        exact ⟨t, by injection h with h2; exact h2.symm⟩
    | error err =>
        rw [hd] at h
        simp only [Except.map] at h
        exact Except.noConfusion h
  · unfold AnyTxEnvelope.typed_decode TxEnvelope.typed_decode
    rw [if_neg h]
    rfl

/-- Witness for C2: the typed decode at the recognized type tag 1 succeeds
with an Ethereum variant, and at the unrecognized type tag 100 it is a
decode failure naming the tag. -/
theorem decode_never_unknown_witness :
    (∃ t, AnyTxEnvelope.Ethereum
        { tx := { nonce := 0, gas_limit := 0, gas_price := Option.none,
                  max_priority_fee_per_gas := Option.none, value := 0, input := [0] },
          sig := 0, bytes := [1, 0], flag := some 1 }
      = AnyTxEnvelope.Ethereum t)
    ∧ AnyTxEnvelope.typed_decode 100 []
        = Except.error (Eip2718Error.unexpectedType 100) :=
  ⟨decode_never_unknown.1 1 [0] _ rfl,
   decode_never_unknown.2.2 100 [] (by decide)⟩

/-- C3: converting an Unknown typed transaction into the generic request
leaves every structured field defaulted and makes the open field bag the
record's bag with the type key forcibly set to the numeric type tag —
overwriting any stale type entry, every other key unchanged; the Ethereum
variant delegates to the known-transaction-to-request conversion under an
empty bag. -/
theorem unknown_to_request_fields :
    (∀ u : UnknownTypedTransaction,
        (AnyTypedTransaction.toRequest (AnyTypedTransaction.Unknown u)).inner
            = TransactionRequest.default
        ∧ (AnyTypedTransaction.toRequest (AnyTypedTransaction.Unknown u)).other
            = Fields.insert u.fields "type" (Json.num u.ty)
        ∧ Fields.lookup
              (AnyTypedTransaction.toRequest (AnyTypedTransaction.Unknown u)).other "type"
            = some (Json.num u.ty)
        ∧ ∀ k, k ≠ "type" →
            Fields.lookup
                (AnyTypedTransaction.toRequest (AnyTypedTransaction.Unknown u)).other k
              = Fields.lookup u.fields k)
    ∧ (∀ tx : TypedTransaction,
        AnyTypedTransaction.toRequest (AnyTypedTransaction.Ethereum tx)
            = WithOtherFields.new (TypedTransaction.toRequest tx)) := by
  refine ⟨fun u => ⟨rfl, rfl, ?_, fun k hk => ?_⟩, fun tx => rfl⟩
  · exact Fields.lookup_insert_self u.fields "type" (Json.num u.ty)
  · exact Fields.lookup_insert_ne u.fields "type" k (Json.num u.ty) hk

/-- Concrete Unknown record for the C3 witness: type tag 9 and a field bag
already holding a stale type entry next to an ordinary field. -/
def requestWitnessRecord : UnknownTypedTransaction :=
  { ty := 9, fields := [("type", Json.num 2), ("a", Json.num 1)],
    nonce := 0, gas_limit := 0, gas_price := Option.none,
    max_priority_fee_per_gas := Option.none }

/-- Witness for C3 at the record with type tag 9 and a stale type entry: the
ordinary key survives the conversion unchanged. -/
theorem unknown_to_request_fields_witness :
    Fields.lookup
        (AnyTypedTransaction.toRequest
            (AnyTypedTransaction.Unknown requestWitnessRecord)).other "a"
      = Fields.lookup requestWitnessRecord.fields "a" :=
  (unknown_to_request_fields.1 requestWitnessRecord).2.2.2 "a" (by decide)

/-- C4: `priority_fee_or_price` returns the max priority fee per gas when
present, else the gas price when present, else zero — the same policy on
both `AnyTypedTransaction` and `AnyTxEnvelope`, hence for the Known and
Unknown variants of both. -/
theorem priority_fee_or_price_policy :
    (∀ t : AnyTypedTransaction,
        (∀ p, AnyTypedTransaction.max_priority_fee_per_gas t = some p →
            AnyTypedTransaction.priority_fee_or_price t = p)
        ∧ (AnyTypedTransaction.max_priority_fee_per_gas t = Option.none →
            ∀ g, AnyTypedTransaction.gas_price t = some g →
              AnyTypedTransaction.priority_fee_or_price t = g)
        ∧ (AnyTypedTransaction.max_priority_fee_per_gas t = Option.none →
            AnyTypedTransaction.gas_price t = Option.none →
              AnyTypedTransaction.priority_fee_or_price t = 0))
    ∧ (∀ e : AnyTxEnvelope,
        (∀ p, AnyTxEnvelope.max_priority_fee_per_gas e = some p →
            AnyTxEnvelope.priority_fee_or_price e = p)
        ∧ (AnyTxEnvelope.max_priority_fee_per_gas e = Option.none →
            ∀ g, AnyTxEnvelope.gas_price e = some g →
              AnyTxEnvelope.priority_fee_or_price e = g)
        ∧ (AnyTxEnvelope.max_priority_fee_per_gas e = Option.none →
            AnyTxEnvelope.gas_price e = Option.none →
              AnyTxEnvelope.priority_fee_or_price e = 0)) := by
  constructor
  · intro t
    refine ⟨fun p hp => ?_, fun hn g hg => ?_, fun hn hg => ?_⟩
    · simp [AnyTypedTransaction.priority_fee_or_price, hp, Option.orElse]
    · simp [AnyTypedTransaction.priority_fee_or_price, hn, hg, Option.orElse]
    · simp [AnyTypedTransaction.priority_fee_or_price, hn, hg, Option.orElse]
  · intro e
    refine ⟨fun p hp => ?_, fun hn g hg => ?_, fun hn hg => ?_⟩
    · simp [AnyTxEnvelope.priority_fee_or_price, hp, Option.orElse]
    · simp [AnyTxEnvelope.priority_fee_or_price, hn, hg, Option.orElse]
    · simp [AnyTxEnvelope.priority_fee_or_price, hn, hg, Option.orElse]

/-- Concrete Unknown record with both fee fields present, for the C4
witness. -/
def feeRecordBoth : UnknownTypedTransaction :=
  { ty := 9, fields := [], nonce := 0, gas_limit := 0,
    gas_price := some 3, max_priority_fee_per_gas := some 7 }

/-- Concrete Unknown record with only the legacy gas price present, for the
C4 witness. -/
def feeRecordGasOnly : UnknownTypedTransaction :=
  { ty := 9, fields := [], nonce := 0, gas_limit := 0,
    gas_price := some 3, max_priority_fee_per_gas := Option.none }

/-- Concrete Unknown record with neither fee field present, for the C4
witness. -/
def feeRecordNeither : UnknownTypedTransaction :=
  { ty := 9, fields := [], nonce := 0, gas_limit := 0,
    gas_price := Option.none, max_priority_fee_per_gas := Option.none }

/-- Witness for C4: with both fee fields the priority fee wins, with only a
gas price it falls back to the gas price, and with neither — here on an
Unknown envelope — the result is zero. -/
theorem priority_fee_or_price_policy_witness :
    AnyTypedTransaction.priority_fee_or_price
        (AnyTypedTransaction.Unknown feeRecordBoth) = 7
    ∧ AnyTypedTransaction.priority_fee_or_price
        (AnyTypedTransaction.Unknown feeRecordGasOnly) = 3
    ∧ AnyTxEnvelope.priority_fee_or_price
        (AnyTxEnvelope.Unknown ⟨77, feeRecordNeither⟩) = 0 :=
  ⟨(priority_fee_or_price_policy.1 (AnyTypedTransaction.Unknown feeRecordBoth)).1 7 rfl,
   (priority_fee_or_price_policy.1
      (AnyTypedTransaction.Unknown feeRecordGasOnly)).2.1 rfl 3 rfl,
   (priority_fee_or_price_policy.2
      (AnyTxEnvelope.Unknown ⟨77, feeRecordNeither⟩)).2.2 rfl rfl⟩

/-- C5: `deser_by_key` on the Ethereum variant of either type returns
`Option.none` for every key; on the Unknown variant it delegates to the
inner record's per-key field extraction, which yields `Option.none` for an
absent key and `some` of the decode result for a present one. -/
theorem deser_by_key_dispatch :
    ∀ (α : Type) (dec : Json → Except String α) (key : String),
      (∀ t : TypedTransaction,
          AnyTypedTransaction.deser_by_key dec (AnyTypedTransaction.Ethereum t) key
            = Option.none)
      ∧ (∀ t : TxEnvelope,
          AnyTxEnvelope.deser_by_key dec (AnyTxEnvelope.Ethereum t) key = Option.none)
      ∧ (∀ u : UnknownTypedTransaction,
          AnyTypedTransaction.deser_by_key dec (AnyTypedTransaction.Unknown u) key
            = UnknownTypedTransaction.field dec u key)
      ∧ (∀ e : UnknownTxEnvelope,
          AnyTxEnvelope.deser_by_key dec (AnyTxEnvelope.Unknown e) key
            = UnknownTypedTransaction.field dec e.inner key)
      ∧ (∀ u : UnknownTypedTransaction,
          Fields.lookup u.fields key = Option.none →
            UnknownTypedTransaction.field dec u key = Option.none)
      ∧ (∀ (u : UnknownTypedTransaction) (v : Json),
          Fields.lookup u.fields key = some v →
            UnknownTypedTransaction.field dec u key = some (dec v)) := by
  intro α dec key
  refine ⟨fun t => rfl, fun t => rfl, fun u => rfl, fun e => rfl,
    fun u h => ?_, fun u v h => ?_⟩
  · simp [UnknownTypedTransaction.field, h]
  · simp [UnknownTypedTransaction.field, h]

/-- Concrete Unknown record carrying one field, for the C5 witness. -/
def probeRecordPresent : UnknownTypedTransaction :=
  { ty := 5, fields := [("a", Json.num 1)], nonce := 0, gas_limit := 0,
    gas_price := Option.none, max_priority_fee_per_gas := Option.none }

/-- Concrete Unknown record with an empty field bag, for the C5 witness. -/
def probeRecordAbsent : UnknownTypedTransaction :=
  { ty := 5, fields := [], nonce := 0, gas_limit := 0,
    gas_price := Option.none, max_priority_fee_per_gas := Option.none }

/-- Witness for C5 with the identity decoder at key a: absent key gives
absence, present key gives `some` of the decode result. -/
theorem deser_by_key_dispatch_witness :
    UnknownTypedTransaction.field Except.ok probeRecordAbsent "a" = Option.none
    ∧ UnknownTypedTransaction.field Except.ok probeRecordPresent "a"
        = some (Except.ok (Json.num 1)) :=
  ⟨(deser_by_key_dispatch Json Except.ok "a").2.2.2.2.1 probeRecordAbsent rfl,
   (deser_by_key_dispatch Json Except.ok "a").2.2.2.2.2 probeRecordPresent
      (Json.num 1) rfl⟩
